import Mathlib

/-!
Verification development for the personalization data pipeline of the
diet-recommendation repository.

The Python source is shallowly embedded:
* floats become exact rationals (`ℚ`);
* Python dicts become association lists in insertion order (`List (key × value)`),
  read through `dictGet` / `List.lookup` and written through `insertAssoc`;
* `collections.Counter` becomes an insertion-ordered tally list built with `incr`;
* Python's `sorted(..., key=k, reverse=True)` is a *stable* sort, so it is embedded
  as `List.insertionSort` (stable) with the corresponding relation — any two stable
  sorts with the same total preorder agree elementwise;
* `try/except` and fallible lookups become `Option` / `Except`;
* wall-clock timestamps (`datetime.now()`) are passed in as an explicit `now` argument;
* disk persistence (`pickle` load/save) and logging are not modelled.
-/

namespace DietRec

/-- Python `d.get(k, default)` on an insertion-ordered association list. -/
def dictGet {α : Type} (l : List (String × α)) (k : String) (d : α) : α :=
  match l.lookup k with
  | some v => v
  | none => d

/-- One `counter[k] = counter.get(k, 0) + 1` step; keeps first-insertion order of keys,
exactly like a Python dict / `Counter`. -/
def incr {α : Type} [BEq α] : List (α × Nat) → α → List (α × Nat)
  | [], k => [(k, 1)]
  | (k', n) :: rest, k => if k' == k then (k', n + 1) :: rest else (k', n) :: incr rest k

/-- Python `d[k] = v` on a dict: overwrite in place, append if absent. -/
def insertAssoc {α : Type} (l : List (String × α)) (k : String) (v : α) : List (String × α) :=
  match l with
  | [] => [(k, v)]
  | (k', v') :: rest => if k' == k then (k', v) :: rest else (k', v') :: insertAssoc rest k v

/-- Lexicographic comparison of character lists by code point, matching Python's
string ordering. -/
def charLe : List Char → List Char → Bool
  | [], _ => true
  | _ :: _, [] => false
  | a :: as, b :: bs => if a < b then true else if b < a then false else charLe as bs

/-- Python `a <= b` on strings (lexicographic by code point). -/
def strLeB (a b : String) : Bool := charLe a.data b.data

/-- Python `sorted(strings)`. -/
def sortStrings (l : List String) : List String :=
  l.insertionSort (fun a b => strLeB a b = true)

/-- Python `sorted(items, key=f, reverse=True)`: a stable descending sort by key. -/
def pySortDescBy {α : Type} {β : Type} [LinearOrder β] (f : α → β) (l : List α) : List α :=
  l.insertionSort (fun a b => f b ≤ f a)

/-- Python `round(x, 2)`, modelled on exact rationals as rounding to the nearest
multiple of 1/100 (the original rounds IEEE doubles). -/
def round2 (q : ℚ) : ℚ := ((round (q * 100) : ℤ) : ℚ) / 100

/-! ## Data model (`core.base.UserData` and its parts) -/

/-- One meal-log record. Optional fields model Python dict keys that may be absent
(`meal.get(...)`). -/
structure Meal where
  meal_type : Option String
  foods : List String
  satisfaction_score : Option ℚ
  calories : Option ℚ
deriving Repr, DecidableEq, Inhabited

/-- One feedback record. -/
structure Feedback where
  feedback_type : Option String
  user_choice : Option String
deriving Repr, DecidableEq, Inhabited

/-- The user profile dict; only the keys the embedded code reads are modelled. -/
structure Profile where
  age : Option Int
  gender : Option String
  activity_level : Option String
  taste_preferences : List (String × Int)
  allergies : List String
  dislikes : List String
  dietary_preferences : List String
  health_goals : List String
deriving Repr, DecidableEq, Inhabited

/-- `core.base.UserData`: the record `PersistentStore.getUser` returns. -/
structure UserData where
  user_id : String
  profile : Profile
  meals : List Meal
  feedback : List Feedback
deriving Repr, DecidableEq, Inhabited

/-! ## `modules/recommendation_engine.py` -/

/-- One entry of the static food table `RecommendationEngine._load_food_database`.
The source entries carry `calories`, `protein`, `carbs`, `fat`, `category`;
no entry has an `avg_satisfaction` or `nutrition` key, so `_get_food_info`'s
`.get` defaults for those always apply. -/
structure FoodDBEntry where
  calories : ℚ
  protein : ℚ
  carbs : ℚ
  fat : ℚ
  category : String
deriving Repr, DecidableEq

/-- `RecommendationEngine._load_food_database`. -/
def food_database : List (String × FoodDBEntry) :=
  [("米饭", ⟨130, 2.7, 28, 0.3, "主食"⟩),
   ("面条", ⟨131, 5, 25, 1.1, "主食"⟩),
   ("鸡蛋", ⟨155, 13, 1.1, 11, "蛋白质"⟩),
   ("鸡肉", ⟨165, 31, 0, 3.6, "蛋白质"⟩),
   ("鱼肉", ⟨206, 22, 0, 12, "蛋白质"⟩),
   ("豆腐", ⟨76, 8, 2, 4.8, "蛋白质"⟩),
   ("菠菜", ⟨23, 2.9, 3.6, 0.4, "蔬菜"⟩),
   ("西兰花", ⟨34, 2.8, 7, 0.4, "蔬菜"⟩),
   ("苹果", ⟨52, 0.3, 14, 0.2, "水果"⟩),
   ("香蕉", ⟨89, 1.1, 23, 0.3, "水果"⟩),
   ("牛奶", ⟨42, 3.4, 5, 1, "乳制品"⟩),
   ("燕麦", ⟨389, 17, 66, 7, "主食"⟩)]

/-- The food dict `_get_food_info` returns. Since no `food_database` entry has an
`avg_satisfaction` or `nutrition` key, `satisfaction_score` is always the default
`4.0` and `nutrition` is always the default empty dict. -/
structure FoodItem where
  name : String
  calories : ℚ
  category : String
  nutrition : List (String × ℚ)
  satisfaction_score : ℚ
deriving Repr, DecidableEq, Inhabited

/-- `RecommendationEngine._get_food_info`: lookup with defaults
(`calories` 100 and `category` "其他" for unknown foods). -/
def get_food_info (food_name : String) : FoodItem :=
  match food_database.lookup food_name with
  | some e => { name := food_name, calories := e.calories, category := e.category,
                nutrition := [], satisfaction_score := 4 }
  | none => { name := food_name, calories := 100, category := "其他",
              nutrition := [], satisfaction_score := 4 }

/-- `RecommendationEngine._calculate_nutrition_score`: mean satisfaction plus a
diversity bonus of 0.1 per distinct category, capped at 0.3. -/
def _calculate_nutrition_score (foods : List FoodItem) : ℚ :=
  if foods.isEmpty then 0
  else
    let categories := (foods.map (·.category)).eraseDups
    let score := (foods.map (·.satisfaction_score)).sum
    let diversity_bonus := min ((categories.length : ℚ) * 0.1) 0.3
    score / (foods.length : ℚ) + diversity_bonus

/-- A meal combination dict as produced by the generator strategies. -/
structure MealCombination where
  name : String
  description : String
  foods : List FoodItem
  total_calories : ℚ
  nutrition_score : ℚ
  personalization_score : ℚ
  categories : List String
  source : String
deriving Repr, DecidableEq, Inhabited

/-- `meal.get('meal_type') == meal_type` (a missing key compares unequal). -/
def isMealType (meal_type : String) (meal : Meal) : Bool :=
  meal.meal_type == some meal_type

/-- `meal.get('satisfaction_score', 0) >= 4`. -/
def isHighSat (meal : Meal) : Bool :=
  decide ((4 : ℚ) ≤ meal.satisfaction_score.getD 0)

/-- The contiguous 2–3-food windows of `_generate_historical_combinations`:
`for i in range(len(foods)): for j in range(i+1, min(i+3, len(foods))):
 combo = tuple(sorted(foods[i:j+1]))`. -/
def comboWindows (foods : List String) : List (List String) :=
  (List.range foods.length).flatMap (fun i =>
    (List.range' (i + 1) (min (i + 3) foods.length - (i + 1))).map (fun j =>
      sortStrings ((foods.drop i).take (j + 1 - i))))

/-- The combination dict built inside the loop of
`_generate_historical_combinations` for a window `combo`; `n` is the running
`len(combinations) + 1` feeding the numbered name. -/
def mkHistoricalCombination (meal_type : String) (n : Nat) (combo : List String) :
    MealCombination :=
  { name := "历史搭配" ++ toString n
    description := "基于您" ++ meal_type ++ "的历史偏好"
    foods := combo.map get_food_info
    total_calories := ((combo.map get_food_info).map (·.calories)).sum
    nutrition_score := _calculate_nutrition_score (combo.map get_food_info)
    personalization_score := 1
    categories := ["历史数据"]
    source := "historical" }

/-- The combination-building loop of `_generate_historical_combinations`: walk the
(top-2) sorted window tallies, keep tallies with count ≥ 2, build the combination
dict, and append it only if it carries ≥ 2 foods (`_get_food_info` always returns a
truthy dict, so every window food is appended). -/
def buildHistorical (meal_type : String) : List MealCombination → List (List String × Nat) →
    List MealCombination
  | acc, [] => acc
  | acc, (combo, count) :: rest =>
    if 2 ≤ count then
      if 2 ≤ (combo.map get_food_info).length then
        buildHistorical meal_type (acc ++ [mkHistoricalCombination meal_type (acc.length + 1) combo]) rest
      else buildHistorical meal_type acc rest
    else buildHistorical meal_type acc rest

/-- Body of `_generate_historical_combinations` after the meal-type filter:
tally sorted 2–3-food windows of high-satisfaction (≥4) meals with ≥2 foods,
sort tallies by descending count (stable), take the top 2, and build combinations. -/
def historicalFromRecords (meal_type : String) (meal_records : List Meal) :
    List MealCombination :=
  if meal_records.isEmpty then []
  else
    let food_combinations : List (List String × Nat) :=
      meal_records.foldl (fun acc meal =>
        if 2 ≤ meal.foods.length ∧ (4 : ℚ) ≤ meal.satisfaction_score.getD 0 then
          (comboWindows meal.foods).foldl incr acc
        else acc) []
    let sorted_combinations := pySortDescBy (fun x => x.2) food_combinations
    buildHistorical meal_type [] (sorted_combinations.take 2)

/-- `RecommendationEngine._generate_historical_combinations`. -/
def _generate_historical_combinations (user_data : UserData) (meal_type : String) :
    List MealCombination :=
  historicalFromRecords meal_type (user_data.meals.filter (isMealType meal_type))

/-- Body of `_get_user_favorite_foods`: foods of high-satisfaction meals of the given
type, tallied and sorted by descending frequency (stable), top 10. -/
def favoriteFromMeals (meal_type : String) (meals : List Meal) : List String :=
  let favorite_foods :=
    (meals.filter (fun meal => isMealType meal_type meal && isHighSat meal)).flatMap (·.foods)
  let food_counts := favorite_foods.foldl incr []
  ((pySortDescBy (fun x => x.2) food_counts).take 10).map Prod.fst

/-- `RecommendationEngine._get_user_favorite_foods`. -/
def _get_user_favorite_foods (user_data : UserData) (meal_type : String) : List String :=
  favoriteFromMeals meal_type user_data.meals

/-- The combination dict built by `_generate_personalized_combinations` from the
selected favorite foods. -/
def mkPersonalizedCombination (meal_type : String) (foods : List FoodItem) :
    MealCombination :=
  { name := "个性化搭配"
    description := "基于您的" ++ meal_type ++ "偏好定制"
    foods := foods
    total_calories := (foods.map (·.calories)).sum
    nutrition_score := _calculate_nutrition_score foods
    personalization_score := 0.9
    categories := ["个性化"]
    source := "personalized" }

/-- The `selected_foods = favorite_foods[:min(4, len(favorite_foods))]` food dicts
of `_generate_personalized_combinations`. -/
def personalizedFoods (favorite_foods : List String) : List FoodItem :=
  (favorite_foods.take (min 4 favorite_foods.length)).map get_food_info

/-- Body of `_generate_personalized_combinations` given the favorite-food list:
with ≥2 favorites, build a single combination from up to 4 of them. -/
def personalizedFromFavorites (meal_type : String) (favorite_foods : List String) :
    List MealCombination :=
  if 2 ≤ favorite_foods.length then
    if 2 ≤ (personalizedFoods favorite_foods).length then
      [mkPersonalizedCombination meal_type (personalizedFoods favorite_foods)]
    else []
  else []

/-- `RecommendationEngine._generate_personalized_combinations`
(the `preferences` argument is accepted but never read, as in the source). -/
def _generate_personalized_combinations (user_data : UserData) (meal_type : String)
    (preferences : List (String × String)) : List MealCombination :=
  personalizedFromFavorites meal_type (_get_user_favorite_foods user_data meal_type)

/-- `RecommendationEngine._generate_similar_user_combinations`: an intentional stub
returning no combinations. -/
def _generate_similar_user_combinations (user_data : UserData) (meal_type : String) :
    List MealCombination :=
  []

/-- One static meal template (`_load_meal_templates` rows). -/
structure MealTemplate where
  name : String
  categories : List String
deriving Repr, DecidableEq

/-- `RecommendationEngine._load_meal_templates`. -/
def meal_templates : List (String × List MealTemplate) :=
  [("breakfast",
    [⟨"经典早餐", ["主食", "蛋白质", "饮品"]⟩,
     ⟨"健康早餐", ["谷物", "水果", "蛋白质"]⟩,
     ⟨"中式早餐", ["主食", "蛋白质", "蔬菜"]⟩]),
   ("lunch",
    [⟨"均衡午餐", ["主食", "蛋白质", "蔬菜"]⟩,
     ⟨"轻食午餐", ["主食", "蛋白质", "蔬菜"]⟩,
     ⟨"丰盛午餐", ["主食", "蛋白质", "蔬菜", "汤品"]⟩]),
   ("dinner",
    [⟨"清淡晚餐", ["主食", "蛋白质", "蔬菜"]⟩,
     ⟨"温馨晚餐", ["主食", "蛋白质", "蔬菜"]⟩]),
   ("snack",
    [⟨"健康小食", ["水果", "坚果"]⟩,
     ⟨"休闲小食", ["饮品", "小食"]⟩])]

/-- The `common_foods` table of `_select_common_food_for_category`. -/
def common_foods : List (String × List String) :=
  [("主食", ["米饭", "面条", "面包", "粥"]),
   ("蛋白质", ["鸡蛋", "鸡肉", "牛肉", "豆腐"]),
   ("蔬菜", ["青菜", "白菜", "西红柿"]),
   ("饮品", ["牛奶", "酸奶", "汤"]),
   ("水果", ["苹果", "香蕉"]),
   ("坚果", ["坚果"]),
   ("小食", ["饼干"])]

/-- The `food_name` choice of `_select_common_food_for_category` over a non-empty
category food list: pick the meal-matched staple for "主食", otherwise the first
food (`foods[0]`, here `headI`). -/
def selectFoodName (category meal_type : String) (foods : List String) : String :=
  if category == "主食" && meal_type == "breakfast" then
    (if foods.contains "面包" then "面包" else foods.headI)
  else if category == "主食" && meal_type == "lunch" then
    (if foods.contains "米饭" then "米饭" else foods.headI)
  else if category == "主食" && meal_type == "dinner" then
    (if foods.contains "粥" then "粥" else foods.headI)
  else foods.headI

/-- `RecommendationEngine._select_common_food_for_category`: `none` when the
category is unknown (`common_foods.get(category, [])` empty, so `if foods:`
fails), otherwise the food dict of the chosen name. -/
def _select_common_food_for_category (category : String) (meal_type : String) :
    Option FoodItem :=
  if (dictGet common_foods category []).isEmpty then none
  else some (get_food_info (selectFoodName category meal_type (dictGet common_foods category [])))

/-- The food dicts collected for one template: one common food per category,
skipping categories for which `_select_common_food_for_category` returns `None`. -/
def templateFoods (meal_type : String) (template : MealTemplate) : List FoodItem :=
  template.categories.filterMap
    (fun category => _select_common_food_for_category category meal_type)

/-- The combination dict built by `_generate_template_combinations` for one
template. -/
def mkTemplateCombination (meal_type : String) (template : MealTemplate) :
    MealCombination :=
  { name := template.name
    description := "营养均衡的" ++ meal_type ++ "搭配"
    foods := templateFoods meal_type template
    total_calories := ((templateFoods meal_type template).map (·.calories)).sum
    nutrition_score := _calculate_nutrition_score (templateFoods meal_type template)
    personalization_score := 0.3
    categories := template.categories
    source := "template" }

/-- `RecommendationEngine._generate_template_combinations`: use up to 2 templates of
the meal type; fill each category (skipping unknown ones), and keep the combination
only if it carries ≥ 2 foods. -/
def _generate_template_combinations (user_data : UserData) (meal_type : String) :
    List MealCombination :=
  ((dictGet meal_templates meal_type []).take 2).filterMap (fun template =>
    if 2 ≤ (templateFoods meal_type template).length then
      some (mkTemplateCombination meal_type template)
    else none)

/-- The dedup key of `_deduplicate_and_rank_combinations`:
`tuple(sorted([f["name"] for f in combo["foods"]]))`. -/
def comboKey (combo : MealCombination) : List String :=
  sortStrings (combo.foods.map (·.name))

/-- The dedup loop of `_deduplicate_and_rank_combinations`, rendered recursively:
keep a combination only when its sorted food-name key has not been seen. -/
def dedupCombinations : List (List String) → List MealCombination → List MealCombination
  | _, [] => []
  | seen, combo :: rest =>
    let key := comboKey combo
    if seen.contains key then dedupCombinations seen rest
    else combo :: dedupCombinations (seen ++ [key]) rest

/-- `score_combination` inside `_deduplicate_and_rank_combinations`. On an empty
food list the Python source would raise `ZeroDivisionError`; in `ℚ` the division
yields 0 (the generator only ever scores combinations with ≥ 2 foods). -/
def score_combination (combo : MealCombination) : ℚ :=
  combo.personalization_score * 0.4 + combo.nutrition_score * 0.3 +
    (combo.foods.map (·.satisfaction_score)).sum / (combo.foods.length : ℚ) * 0.3

/-- `RecommendationEngine._deduplicate_and_rank_combinations` (the `user_data`
argument is accepted but never read, as in the source). -/
def _deduplicate_and_rank_combinations (combinations : List MealCombination)
    (user_data : UserData) : List MealCombination :=
  pySortDescBy score_combination (dedupCombinations [] combinations)

/-- One hard-coded fallback row of `_generate_fallback_combinations`. -/
structure FallbackTemplate where
  name : String
  foods : List String
deriving Repr, DecidableEq

/-- The `fallback_combinations` table of `_generate_fallback_combinations`. -/
def fallback_combination_table : List (String × List FallbackTemplate) :=
  [("breakfast",
    [⟨"营养早餐", ["面包", "鸡蛋", "牛奶"]⟩,
     ⟨"健康早餐", ["燕麦粥", "香蕉", "酸奶"]⟩]),
   ("lunch",
    [⟨"均衡午餐", ["米饭", "鸡肉", "青菜"]⟩,
     ⟨"轻食午餐", ["面条", "牛肉", "西红柿"]⟩]),
   ("dinner",
    [⟨"清淡晚餐", ["粥", "豆腐", "白菜"]⟩,
     ⟨"温馨晚餐", ["饺子", "汤"]⟩]),
   ("snack",
    [⟨"健康小食", ["苹果", "坚果"]⟩,
     ⟨"休闲小食", ["酸奶", "饼干"]⟩])]

/-- The combination dict built by `_generate_fallback_combinations` for one
hard-coded row. Note that the source sets `nutrition_score` to the literal `4.0`
here and never recomputes it with `_calculate_nutrition_score`. -/
def mkFallbackCombination (meal_type : String) (template : FallbackTemplate) :
    MealCombination :=
  { name := template.name
    description := "营养均衡的" ++ meal_type ++ "搭配"
    foods := template.foods.map get_food_info
    total_calories := ((template.foods.map get_food_info).map (·.calories)).sum
    nutrition_score := 4
    personalization_score := 0.2
    categories := ["基础推荐"]
    source := "fallback" }

/-- `RecommendationEngine._generate_fallback_combinations`. -/
def _generate_fallback_combinations (meal_type : String) : List MealCombination :=
  (dictGet fallback_combination_table meal_type []).filterMap (fun template =>
    if 2 ≤ (template.foods.map get_food_info).length then
      some (mkFallbackCombination meal_type template)
    else none)

/-- `RecommendationEngine._generate_meal_combinations`: run the strategies in
priority order, add templates when fewer than 3 candidates exist, deduplicate and
rank, fall back to the static table when empty, and return the top 5. The
`except`-branch of the source (which also returns the static fallback) cannot fire
in this total embedding. -/
def _generate_meal_combinations (user_data : UserData) (meal_type : String)
    (preferences context : List (String × String)) : List MealCombination :=
  let combinations :=
    _generate_historical_combinations user_data meal_type
      ++ _generate_personalized_combinations user_data meal_type preferences
      ++ _generate_similar_user_combinations user_data meal_type
  let combinations :=
    if combinations.length < 3 then
      combinations ++ _generate_template_combinations user_data meal_type
    else combinations
  let combinations := _deduplicate_and_rank_combinations combinations user_data
  let combinations :=
    if combinations.isEmpty then _generate_fallback_combinations meal_type
    else combinations
  combinations.take 5

/-- The §4.4 nutrition formula as worded by the spec, for comparison with the
combinations the code emits: mean `satisfactionBaseline` over the foods plus
`min(0.1 * distinctCategoryCount, 0.3)`. -/
def specNutritionFormula (foods : List FoodItem) : ℚ :=
  (foods.map (·.satisfaction_score)).sum / (foods.length : ℚ) +
    min (((foods.map (·.category)).eraseDups.length : ℚ) * 0.1) 0.3

/-! ## `modules/efficient_data_processing.py` -/

/-- Result of `EfficientDataProcessor._analyze_meal_patterns`. The source returns a
dict of one of two shapes: `{'total_meals': 0, 'patterns': {}}` for an empty meal
log, or the flat statistics dict otherwise. -/
inductive MealPatterns where
  | empty
  | patterns (favorite_foods : List String) (meal_type_preference : List (String × Nat))
      (avg_satisfaction : ℚ) (avg_calories : ℚ) (total_meals : Nat) (food_diversity : Nat)
deriving Repr, DecidableEq

/-- `meal_analysis.get('favorite_foods', [])`. -/
def MealPatterns.favorite_foods : MealPatterns → List String
  | .empty => []
  | .patterns f _ _ _ _ _ => f

/-- `meal_analysis.get('avg_satisfaction', 0)`. -/
def MealPatterns.avg_satisfactionD : MealPatterns → ℚ
  | .empty => 0
  | .patterns _ _ s _ _ _ => s

/-- `meal_analysis.get('avg_calories', 0)`. -/
def MealPatterns.avg_caloriesD : MealPatterns → ℚ
  | .empty => 0
  | .patterns _ _ _ c _ _ => c

/-- `meal_analysis.get('food_diversity', 0)`. -/
def MealPatterns.food_diversityD : MealPatterns → Nat
  | .empty => 0
  | .patterns _ _ _ _ _ d => d

/-- Result of `EfficientDataProcessor._analyze_feedback_patterns`; again a dict of
one of two shapes in the source. -/
inductive FeedbackPatterns where
  | empty
  | patterns (feedback_distribution : List (String × Nat)) (total_feedback : Nat)
      (common_choices : List (String × Nat))
deriving Repr, DecidableEq

/-- `feedback_analysis.get('feedback_distribution', {})`. -/
def FeedbackPatterns.feedback_distributionD : FeedbackPatterns → List (String × Nat)
  | .empty => []
  | .patterns d _ _ => d

/-- The `basic_info` part of `_analyze_user_preferences`. In the source a missing
profile key yields the literal string `'unknown'`; for `age` (an integer elsewhere)
we keep the option, `none` standing for that `'unknown'` default — no embedded code
ever compares ages. -/
structure BasicInfo where
  age : Option Int
  gender : String
  activity_level : String
deriving Repr, DecidableEq

/-- The `dietary_restrictions` part of `_analyze_user_preferences`. -/
structure DietaryRestrictions where
  allergies : List String
  dislikes : List String
  dietary_preferences : List String
deriving Repr, DecidableEq

/-- Result of `EfficientDataProcessor._analyze_user_preferences`. -/
structure PreferenceAnalysis where
  basic_info : BasicInfo
  taste_preferences : List (String × Int)
  dietary_restrictions : DietaryRestrictions
  health_goals : List String
deriving Repr, DecidableEq

/-- One `nutrition_patterns` cache entry. -/
structure NutritionPattern where
  avg_calories : ℚ
  avg_satisfaction : ℚ
  food_diversity : Nat
deriving Repr, DecidableEq

/-- Result of `EfficientDataProcessor._generate_personalized_recommendations`. -/
structure Recommendations where
  food_recommendations : List String
  meal_suggestions : List String
  health_tips : List String
  improvement_suggestions : List String
deriving Repr, DecidableEq

/-- A successful per-user result of `_process_single_user`. -/
structure UserAnalysisRecord where
  user_id : String
  meal_analysis : MealPatterns
  feedback_analysis : FeedbackPatterns
  preference_analysis : PreferenceAnalysis
  recommendations : Recommendations
  processed_at : String
deriving Repr, DecidableEq

/-- `Counter.most_common(n)`: stable descending sort by count, top `n`
(CPython documents `nlargest` as equivalent to `sorted(..., reverse=True)[:n]`). -/
def mostCommon (counter : List (String × Nat)) (n : Nat) : List (String × Nat) :=
  (pySortDescBy (fun x => x.2) counter).take n

/-- `EfficientDataProcessor._analyze_meal_patterns`: tallies of foods and meal
types, means of the satisfaction/calorie values present (`'calories' in meal and
meal['calories']` also drops a present-but-zero value), top-5 favorite foods,
and the distinct-food count. -/
def _analyze_meal_patterns (meals : List Meal) : MealPatterns :=
  if meals.isEmpty then .empty
  else
    let food_counter := (meals.flatMap (·.foods)).foldl incr []
    let meal_type_counter := (meals.map (fun m => m.meal_type.getD "unknown")).foldl incr []
    let satisfaction_scores := meals.filterMap (·.satisfaction_score)
    let calorie_totals :=
      meals.filterMap (fun m => m.calories.bind (fun c => if c = 0 then none else some c))
    let avg_satisfaction :=
      if satisfaction_scores.isEmpty then 0
      else satisfaction_scores.sum / (satisfaction_scores.length : ℚ)
    let avg_calories :=
      if calorie_totals.isEmpty then 0
      else calorie_totals.sum / (calorie_totals.length : ℚ)
    .patterns ((mostCommon food_counter 5).map Prod.fst)
      (pySortDescBy (fun x => x.2) meal_type_counter)
      (round2 avg_satisfaction) (round2 avg_calories)
      meals.length food_counter.length

/-- `EfficientDataProcessor._analyze_feedback_patterns`. -/
def _analyze_feedback_patterns (feedbacks : List Feedback) : FeedbackPatterns :=
  if feedbacks.isEmpty then .empty
  else
    let feedback_types := (feedbacks.map (fun f => f.feedback_type.getD "unknown")).foldl incr []
    let user_choices := feedbacks.filterMap (·.user_choice)
    .patterns (pySortDescBy (fun x => x.2) feedback_types) feedbacks.length
      (mostCommon (user_choices.foldl incr []) 5)

/-- `EfficientDataProcessor._analyze_user_preferences`. -/
def _analyze_user_preferences (user_data : UserData) : PreferenceAnalysis :=
  { basic_info :=
      { age := user_data.profile.age
        gender := user_data.profile.gender.getD "unknown"
        activity_level := user_data.profile.activity_level.getD "unknown" }
    taste_preferences := user_data.profile.taste_preferences
    dietary_restrictions :=
      { allergies := user_data.profile.allergies
        dislikes := user_data.profile.dislikes
        dietary_preferences := user_data.profile.dietary_preferences }
    health_goals := user_data.profile.health_goals }

/-- `EfficientDataProcessor._generate_personalized_recommendations`
(the `user_data` argument is accepted but never read, as in the source). -/
def _generate_personalized_recommendations (user_data : UserData)
    (meal_analysis : MealPatterns) (feedback_analysis : FeedbackPatterns)
    (preference_analysis : PreferenceAnalysis) : Recommendations :=
  let favorite_foods := meal_analysis.favorite_foods
  let food_recommendations := if favorite_foods.isEmpty then [] else favorite_foods.take 3
  let fd := feedback_analysis.feedback_distributionD
  let meal_suggestions :=
    if dictGet fd "dislike" 0 < dictGet fd "like" 0 then ["继续选择您喜欢的食物"] else []
  let health_tips :=
    if preference_analysis.health_goals.contains "减重" then ["建议增加蔬菜摄入，减少高热量食物"]
    else if preference_analysis.health_goals.contains "增重" then ["建议增加蛋白质和健康脂肪摄入"]
    else []
  let improvement_suggestions :=
    if meal_analysis.avg_satisfactionD < 3 then ["尝试新的食物组合以提高满意度"] else []
  { food_recommendations, meal_suggestions, health_tips, improvement_suggestions }

/-- `EfficientDataProcessor._process_single_user`. The store access and any raised
exception are modelled by `fetch : String → Except String UserData`: `.error msg`
covers both `get_user_data` returning nothing (`'用户数据不存在'`) and a caught
exception, each of which the source turns into an `{'error': msg}` value. The
`processed_at` wall-clock timestamp is the explicit `now` argument. -/
def _process_single_user (fetch : String → Except String UserData) (now : String)
    (user_id : String) : Except String UserAnalysisRecord :=
  match fetch user_id with
  | .error e => .error e
  | .ok user_data =>
    let meal_analysis := _analyze_meal_patterns user_data.meals
    let feedback_analysis := _analyze_feedback_patterns user_data.feedback
    let preference_analysis := _analyze_user_preferences user_data
    .ok { user_id := user_id
          meal_analysis := meal_analysis
          feedback_analysis := feedback_analysis
          preference_analysis := preference_analysis
          recommendations := _generate_personalized_recommendations user_data
            meal_analysis feedback_analysis preference_analysis
          processed_at := now }

/-- The three precomputed caches owned by `EfficientDataProcessor`. -/
structure Caches where
  food_frequency : List (String × Nat)
  user_preferences : List (String × PreferenceAnalysis)
  nutrition_patterns : List (String × NutritionPattern)
deriving Repr, DecidableEq

/-- A processor with empty caches (fresh instance, no cache files on disk). -/
def emptyCaches : Caches := ⟨[], [], []⟩

/-- `EfficientDataProcessor._update_precomputed_data`: under the cache mutex, add
favorite-food counts, overwrite per-user preference and nutrition entries
(last-write-wins), skipping error results. The subsequent `_save_precomputed_data`
disk write is not modelled. -/
def _update_precomputed_data (caches : Caches)
    (results : List (String × Except String UserAnalysisRecord)) : Caches :=
  let food_frequency := results.foldl (fun acc p =>
    match p.2 with
    | .error _ => acc
    | .ok ra => ra.meal_analysis.favorite_foods.foldl incr acc) caches.food_frequency
  let user_preferences := results.foldl (fun acc p =>
    match p.2 with
    | .error _ => acc
    | .ok ra => insertAssoc acc p.1 ra.preference_analysis) caches.user_preferences
  let nutrition_patterns := results.foldl (fun acc p =>
    match p.2 with
    | .error _ => acc
    | .ok ra => insertAssoc acc p.1
        { avg_calories := ra.meal_analysis.avg_caloriesD
          avg_satisfaction := ra.meal_analysis.avg_satisfactionD
          food_diversity := ra.meal_analysis.food_diversityD }) caches.nutrition_patterns
  { food_frequency, user_preferences, nutrition_patterns }

/-- `EfficientDataProcessor.batch_process_user_data`: each id is processed by an
independent worker whose value (success or error) becomes that id's entry; the
results dict is keyed by user id, so with distinct ids the completion order of the
thread pool does not affect it and it is embedded as the ordered entry list.
Afterwards the caches are merged under the mutex. -/
def batch_process_user_data (caches : Caches) (fetch : String → Except String UserData)
    (now : String) (user_ids : List String) :
    List (String × Except String UserAnalysisRecord) × Caches :=
  let results := user_ids.map (fun uid => (uid, _process_single_user fetch now uid))
  (results, _update_precomputed_data caches results)

/-- `EfficientDataProcessor._calculate_preference_similarity`: weighted equality
matches — gender 0.3, activity level 0.2, and 0.1 per taste-preference axis present
in the first profile that matches in the second — normalised by the total weight
considered. -/
def _calculate_preference_similarity (prefs1 prefs2 : PreferenceAnalysis) : ℚ :=
  let gscore : ℚ := if prefs1.basic_info.gender == prefs2.basic_info.gender then 0.3 else 0
  let ascore : ℚ :=
    if prefs1.basic_info.activity_level == prefs2.basic_info.activity_level then 0.2 else 0
  let tscore : ℚ := prefs1.taste_preferences.foldl (fun acc kv =>
    match prefs2.taste_preferences.lookup kv.1 with
    | some v => if v == kv.2 then acc + 0.1 else acc
    | none => acc) 0
  let score := gscore + ascore + tscore
  let total : ℚ := 0.3 + 0.2 + 0.1 * (prefs1.taste_preferences.length : ℚ)
  if 0 < total then score / total else 0

/-- `EfficientDataProcessor.get_user_similarity`: empty for an unknown user id;
otherwise similarity against every other cached profile, sorted descending
(stable), top 5. -/
def get_user_similarity (user_preferences : List (String × PreferenceAnalysis))
    (user_id : String) : List (String × ℚ) :=
  match user_preferences.lookup user_id with
  | none => []
  | some target_prefs =>
    let similarities := (user_preferences.filter (fun p => p.1 != user_id)).map
      (fun p => (p.1, _calculate_preference_similarity target_prefs p.2))
    (pySortDescBy (fun x => x.2) similarities).take 5

/-! ### `FastTrainingPipeline` -/

/-- One recommendation rule of the trained model. -/
structure Rule where
  type : String
  condition : String
  recommendation : String
  confidence : ℚ
deriving Repr, DecidableEq

/-- The cached model `self.models['recommendation']`. Only `recommendation_rules`
is read by `predict_recommendations`; the remaining dict fields (type tag,
timestamp, counts, placeholder metrics) are never consulted. -/
structure TrainedModel where
  recommendation_rules : List Rule
deriving Repr, DecidableEq

/-- One `{food, confidence, reason}` prediction entry. -/
structure Recommendation where
  food : String
  confidence : ℚ
  reason : String
deriving Repr, DecidableEq

/-- The mutable state of a `FastTrainingPipeline` instance relevant to the claims:
the cached model (`self.models.get('recommendation')`), whether the background
thread is live (`self._background_thread is not None and .is_alive()`), and the
`self._stop_event` flag. The periodic loop body itself (a training pass plus an
interruptible wait) is not modelled further. -/
structure FastTrainingPipelineState where
  model : Option TrainedModel
  backgroundAlive : Bool
  stopRequested : Bool
deriving Repr, DecidableEq

/-- `FastTrainingPipeline.__init__`: no model cached, no background thread. -/
def FastTrainingPipeline.freshState : FastTrainingPipelineState :=
  { model := none, backgroundAlive := false, stopRequested := false }

/-- `FastTrainingPipeline.start_background_training`: a guarded no-op when the
background thread is already live; otherwise clear the stop event and start the
single background loop thread. -/
def start_background_training (s : FastTrainingPipelineState) : FastTrainingPipelineState :=
  if s.backgroundAlive then s
  else { s with backgroundAlive := true, stopRequested := false }

/-- `FastTrainingPipeline._evaluate_rule`: `popular_food` rules always apply,
`gender_based` rules apply exactly when the profile gender is `'女'`, anything
else never applies. -/
def _evaluate_rule (rule : Rule) (user_data : UserData) : Bool :=
  if rule.type == "popular_food" then true
  else if rule.type == "gender_based" then user_data.profile.gender == some "女"
  else false

/-- `FastTrainingPipeline.predict_recommendations`: empty without a cached model or
when the user record is missing; otherwise the matching rules become
`{food, confidence, reason}` entries, capped at the first 5. -/
def predict_recommendations (model : Option TrainedModel)
    (fetch : String → Option UserData) (user_id : String) (meal_type : String) :
    List Recommendation :=
  match model with
  | none => []
  | some m =>
    match fetch user_id with
    | none => []
    | some user_data =>
      ((m.recommendation_rules.filter (fun rule => _evaluate_rule rule user_data)).map
        (fun rule => { food := rule.recommendation, confidence := rule.confidence,
                       reason := rule.type })).take 5

/-! ## Sample data used by concrete witnesses -/

/-- A user with no profile data, no meals and no feedback. -/
def emptyU : UserData := ⟨"u", ⟨none, none, none, [], [], [], [], []⟩, [], []⟩

/-- The lunch record of spec scenario A: `{foods: [rice, chicken], satisfaction: 5}`
(no other keys, so no calories entry). -/
def riceChickenMeal : Meal :=
  { meal_type := some "lunch", foods := ["米饭", "鸡肉"],
    satisfaction_score := some 5, calories := none }

/-- A user whose meal log is exactly two identical scenario-A lunch records. -/
def scenarioAUser : UserData :=
  ⟨"ua", ⟨none, none, none, [], [], [], [], []⟩, [riceChickenMeal, riceChickenMeal], []⟩

/-- A store with exactly one user, `"u1"`. -/
def demoFetch : String → Except String UserData :=
  fun uid => if uid == "u1" then .ok scenarioAUser else .error "用户数据不存在"

/-- A one-rule trained model. -/
def demoModel : TrainedModel :=
  ⟨[⟨"popular_food", "food_popularity >= 2", "推荐 米饭", 0.2⟩]⟩

/-- Two combinations over the same food set (in different list order), as the
historical and template strategies could produce. -/
def demoComboA : MealCombination :=
  { name := "A", description := "", foods := [get_food_info "苹果", get_food_info "坚果"],
    total_calories := 152, nutrition_score := 4.2, personalization_score := 1,
    categories := ["历史数据"], source := "historical" }

def demoComboB : MealCombination :=
  { name := "B", description := "", foods := [get_food_info "坚果", get_food_info "苹果"],
    total_calories := 152, nutrition_score := 4.2, personalization_score := 0.3,
    categories := ["基础"], source := "template" }

/-! ## Helper lemmas -/

/-- Every food dict `_get_food_info` builds carries the default satisfaction
baseline 4.0, because no `food_database` entry has an `avg_satisfaction` key. -/
theorem get_food_info_satisfaction (food_name : String) :
    (get_food_info food_name).satisfaction_score = 4 := by
  unfold get_food_info
  cases food_database.lookup food_name <;> rfl

/-- `pySortDescBy` permutes its input. -/
theorem pySortDescBy_perm {α β : Type} [LinearOrder β] (f : α → β) (l : List α) :
    List.Perm (pySortDescBy f l) l :=
  List.perm_insertionSort _ l

/-- Membership is preserved by `pySortDescBy`. -/
theorem mem_pySortDescBy {α β : Type} [LinearOrder β] {f : α → β} {l : List α}
    {a : α} : a ∈ pySortDescBy f l ↔ a ∈ l :=
  (pySortDescBy_perm f l).mem_iff

/-- `pySortDescBy` sorts by non-increasing key. -/
theorem pySortDescBy_pairwise {α β : Type} [LinearOrder β] (f : α → β) (l : List α) :
    (pySortDescBy f l).Pairwise (fun a b => f b ≤ f a) := by
  haveI : IsTotal α (fun a b => f b ≤ f a) := ⟨fun a b => le_total (f b) (f a)⟩
  haveI : IsTrans α (fun a b => f b ≤ f a) := ⟨fun _ _ _ h1 h2 => le_trans h2 h1⟩
  exact List.sorted_insertionSort _ l

/-- Filtering by a conjunction factors through filtering by the first conjunct. -/
theorem filter_and_filter {α : Type} (p q : α → Bool) (l : List α) :
    l.filter (fun a => p a && q a) = (l.filter p).filter (fun a => p a && q a) := by
  induction l with
  | nil => rfl
  | cons a t ih =>
    cases hp : p a <;> cases hq : q a <;>
      simp [List.filter_cons, hp, hq, ih]

/-- `_get_user_favorite_foods` only depends on the meals of the requested type. -/
theorem favoriteFromMeals_restrict (meal_type : String) (meals : List Meal) :
    favoriteFromMeals meal_type meals =
      favoriteFromMeals meal_type (meals.filter (isMealType meal_type)) := by
  unfold favoriteFromMeals
  rw [← filter_and_filter]

/-- The invariant shared by every combination a generator strategy emits. -/
def SourceCombo (ps : ℚ) (src : String) (c : MealCombination) : Prop :=
  2 ≤ c.foods.length ∧
  c.total_calories = (c.foods.map (·.calories)).sum ∧
  (∀ f ∈ c.foods, f.satisfaction_score = 4) ∧
  c.personalization_score = ps ∧
  c.nutrition_score = _calculate_nutrition_score c.foods ∧
  c.source = src

theorem mkHistoricalCombination_sound (meal_type : String) (n : Nat) (combo : List String)
    (h : 2 ≤ (combo.map get_food_info).length) :
    SourceCombo 1 "historical" (mkHistoricalCombination meal_type n combo) := by
  refine ⟨h, rfl, ?_, rfl, rfl, rfl⟩
  intro f hf
  obtain ⟨nm, _, rfl⟩ := List.mem_map.1 hf
  exact get_food_info_satisfaction nm

theorem buildHistorical_sound (meal_type : String) :
    ∀ (l : List (List String × Nat)) (acc : List MealCombination),
      (∀ c ∈ acc, SourceCombo 1 "historical" c) →
      ∀ c ∈ buildHistorical meal_type acc l, SourceCombo 1 "historical" c := by
  intro l
  induction l with
  | nil =>
    intro acc hacc c hc
    exact hacc c hc
  | cons hd tl ih =>
    intro acc hacc c hc
    obtain ⟨combo, count⟩ := hd
    rw [buildHistorical] at hc
    split_ifs at hc with h1 h2
    · refine ih _ ?_ c hc
      intro c' hc'
      rcases List.mem_append.1 hc' with h | h
      · exact hacc c' h
      · rw [List.mem_singleton.1 h]
        exact mkHistoricalCombination_sound meal_type (acc.length + 1) combo h2
    · exact ih acc hacc c hc
    · exact ih acc hacc c hc

theorem historical_sound (user_data : UserData) (meal_type : String) :
    ∀ c ∈ _generate_historical_combinations user_data meal_type,
      SourceCombo 1 "historical" c := by
  intro c hc
  unfold _generate_historical_combinations historicalFromRecords at hc
  split_ifs at hc with h
  · simp at hc
  · exact buildHistorical_sound meal_type _ [] (by simp) c hc

theorem personalized_sound (user_data : UserData) (meal_type : String)
    (preferences : List (String × String)) :
    ∀ c ∈ _generate_personalized_combinations user_data meal_type preferences,
      SourceCombo 0.9 "personalized" c := by
  intro c hc
  unfold _generate_personalized_combinations personalizedFromFavorites at hc
  split_ifs at hc with h1 h2
  · rw [List.mem_singleton.1 hc]
    refine ⟨h2, rfl, ?_, rfl, rfl, rfl⟩
    intro f hf
    obtain ⟨nm, _, rfl⟩ := List.mem_map.1 hf
    exact get_food_info_satisfaction nm
  · simp at hc
  · simp at hc

theorem select_common_food_satisfaction (category meal_type : String) (f : FoodItem)
    (h : _select_common_food_for_category category meal_type = some f) :
    f.satisfaction_score = 4 := by
  unfold _select_common_food_for_category at h
  split_ifs at h
  simp only [Option.some.injEq] at h
  rw [← h]
  exact get_food_info_satisfaction _

theorem template_sound (user_data : UserData) (meal_type : String) :
    ∀ c ∈ _generate_template_combinations user_data meal_type,
      SourceCombo 0.3 "template" c := by
  intro c hc
  unfold _generate_template_combinations at hc
  obtain ⟨t, _, ht⟩ := List.mem_filterMap.1 hc
  split_ifs at ht with h2
  simp only [Option.some.injEq] at ht
  rw [← ht]
  refine ⟨h2, rfl, ?_, rfl, rfl, rfl⟩
  intro f hf
  obtain ⟨cat, _, hcat⟩ := List.mem_filterMap.1 hf
  exact select_common_food_satisfaction cat meal_type f hcat

/-- The invariant of every static-fallback combination: same shape, except that
`nutrition_score` is the literal 4.0. -/
def FallbackCombo (c : MealCombination) : Prop :=
  2 ≤ c.foods.length ∧
  c.total_calories = (c.foods.map (·.calories)).sum ∧
  (∀ f ∈ c.foods, f.satisfaction_score = 4) ∧
  c.personalization_score = 0.2 ∧
  c.nutrition_score = 4 ∧
  c.source = "fallback"

theorem fallback_sound (meal_type : String) :
    ∀ c ∈ _generate_fallback_combinations meal_type, FallbackCombo c := by
  intro c hc
  unfold _generate_fallback_combinations at hc
  obtain ⟨t, _, ht⟩ := List.mem_filterMap.1 hc
  split_ifs at ht with h2
  simp only [Option.some.injEq] at ht
  rw [← ht]
  refine ⟨h2, rfl, ?_, rfl, rfl, rfl⟩
  intro f hf
  obtain ⟨nm, _, rfl⟩ := List.mem_map.1 hf
  exact get_food_info_satisfaction nm

theorem mem_of_mem_dedup :
    ∀ (l : List MealCombination) (seen : List (List String)) (c : MealCombination),
      c ∈ dedupCombinations seen l → c ∈ l := by
  intro l
  induction l with
  | nil => intro seen c hc; simp [dedupCombinations] at hc
  | cons a t ih =>
    intro seen c hc
    simp only [dedupCombinations] at hc
    split_ifs at hc with hseen
    · exact List.mem_cons_of_mem a (ih seen c hc)
    · rcases List.mem_cons.1 hc with rfl | h'
      · exact List.mem_cons_self _ _
      · exact List.mem_cons_of_mem a (ih _ c h')

theorem dedup_keeps_first :
    ∀ (l : List MealCombination) (seen : List (List String)) (c : MealCombination),
      c ∈ dedupCombinations seen l →
      l.find? (fun x => comboKey x == comboKey c) = some c ∧ comboKey c ∉ seen := by
  intro l
  induction l with
  | nil => intro seen c hc; simp [dedupCombinations] at hc
  | cons a t ih =>
    intro seen c hc
    simp only [dedupCombinations] at hc
    split_ifs at hc with hseen
    · obtain ⟨hf, hns⟩ := ih seen c hc
      have hka : (comboKey a == comboKey c) = false := by
        refine beq_false_of_ne (fun he => hns ?_)
        rw [← he]
        simpa using hseen
      refine ⟨?_, hns⟩
      simp [List.find?, hka, hf]
    · rcases List.mem_cons.1 hc with rfl | h'
      · refine ⟨by simp [List.find?], by simpa using hseen⟩
      · obtain ⟨hf, hns⟩ := ih (seen ++ [comboKey a]) c h'
        have hka : (comboKey a == comboKey c) = false := by
          refine beq_false_of_ne (fun he => hns ?_)
          rw [← he]
          exact List.mem_append_right _ (by simp)
        refine ⟨by simp [List.find?, hka, hf], fun hm => hns (List.mem_append_left _ hm)⟩

theorem dedup_complete :
    ∀ (l : List MealCombination) (seen : List (List String)) (c : MealCombination),
      c ∈ l → comboKey c ∉ seen →
      ∃ c' ∈ dedupCombinations seen l, comboKey c' = comboKey c := by
  intro l
  induction l with
  | nil => intro seen c hc _; simp at hc
  | cons a t ih =>
    intro seen c hc hns
    simp only [dedupCombinations]
    split_ifs with hseen
    · rcases List.mem_cons.1 hc with rfl | h'
      · exact absurd (by simpa using hseen) hns
      · exact ih seen c h' hns
    · rcases List.mem_cons.1 hc with rfl | h'
      · exact ⟨_, List.mem_cons_self _ _, rfl⟩
      · by_cases hk : comboKey c = comboKey a
        · exact ⟨a, List.mem_cons_self _ _, hk.symm⟩
        · have hns' : comboKey c ∉ seen ++ [comboKey a] := by
            intro hm
            rcases List.mem_append.1 hm with hm | hm
            · exact hns hm
            · exact hk (by simpa using hm)
          obtain ⟨c', hc', he⟩ := ih (seen ++ [comboKey a]) c h' hns'
          exact ⟨c', List.mem_cons_of_mem a hc', he⟩

theorem dedup_keys_nodup :
    ∀ (l : List MealCombination) (seen : List (List String)),
      ((dedupCombinations seen l).map comboKey).Nodup ∧
      ∀ k ∈ (dedupCombinations seen l).map comboKey, k ∉ seen := by
  intro l
  induction l with
  | nil => intro seen; simp [dedupCombinations]
  | cons a t ih =>
    intro seen
    simp only [dedupCombinations]
    split_ifs with hseen
    · exact ih seen
    · obtain ⟨hnd, hout⟩ := ih (seen ++ [comboKey a])
      simp only [List.map_cons]
      constructor
      · refine List.nodup_cons.2 ⟨fun hm => ?_, hnd⟩
        exact hout _ hm (List.mem_append_right _ (by simp))
      · intro k hk
        rcases List.mem_cons.1 hk with rfl | hk'
        · simpa using hseen
        · exact fun hm => hout k hk' (List.mem_append_left _ hm)

/-- Sorting in `_deduplicate_and_rank_combinations` permutes the deduplicated list. -/
theorem dedup_rank_perm (l : List MealCombination) (user_data : UserData) :
    List.Perm (_deduplicate_and_rank_combinations l user_data) (dedupCombinations [] l) :=
  pySortDescBy_perm _ _

theorem mem_dedup_rank (l : List MealCombination) (user_data : UserData)
    (c : MealCombination) (hc : c ∈ _deduplicate_and_rank_combinations l user_data) :
    c ∈ l :=
  mem_of_mem_dedup l [] c ((dedup_rank_perm l user_data).mem_iff.1 hc)

/-- Membership in an if-then-else of lists comes from one of the branches. -/
theorem mem_ite_list {γ : Type} {P : Prop} [Decidable P] {l1 l2 : List γ} {c : γ}
    (h : c ∈ (if P then l1 else l2)) : c ∈ l1 ∨ c ∈ l2 := by
  split_ifs at h
  · exact Or.inl h
  · exact Or.inr h

/-- Everything `_generate_meal_combinations` returns comes from one of the four
emitting strategies (the similar-user strategy emits nothing). -/
theorem mem_generate_cases (user_data : UserData) (meal_type : String)
    (preferences context : List (String × String)) (c : MealCombination)
    (hc : c ∈ _generate_meal_combinations user_data meal_type preferences context) :
    c ∈ _generate_historical_combinations user_data meal_type ∨
    c ∈ _generate_personalized_combinations user_data meal_type preferences ∨
    c ∈ _generate_template_combinations user_data meal_type ∨
    c ∈ _generate_fallback_combinations meal_type := by
  simp only [_generate_meal_combinations] at hc
  have hc1 := List.mem_of_mem_take hc
  have hbase : ∀ c' : MealCombination,
      c' ∈ _generate_historical_combinations user_data meal_type
        ++ _generate_personalized_combinations user_data meal_type preferences
        ++ _generate_similar_user_combinations user_data meal_type →
      c' ∈ _generate_historical_combinations user_data meal_type ∨
      c' ∈ _generate_personalized_combinations user_data meal_type preferences ∨
      c' ∈ _generate_template_combinations user_data meal_type ∨
      c' ∈ _generate_fallback_combinations meal_type := by
    intro c' h'
    rcases List.mem_append.1 h' with h1 | h2
    · rcases List.mem_append.1 h1 with h3 | h4
      · exact Or.inl h3
      · exact Or.inr (Or.inl h4)
    · simp [_generate_similar_user_combinations] at h2
  rcases mem_ite_list hc1 with hfb | hrk
  · exact Or.inr (Or.inr (Or.inr hfb))
  · have hc2 := mem_dedup_rank _ _ _ hrk
    rcases mem_ite_list hc2 with h1 | h2
    · rcases List.mem_append.1 h1 with h3 | h4
      · exact hbase c h3
      · exact Or.inr (Or.inr (Or.inl h4))
    · exact hbase c h2

/-- With every satisfaction baseline at its default 4.0, the satisfaction list is
constant. -/
theorem sat_map_replicate (foods : List FoodItem)
    (hsat : ∀ f ∈ foods, f.satisfaction_score = 4) :
    foods.map (·.satisfaction_score) = List.replicate foods.length 4 := by
  have h1 : ∀ b ∈ foods.map (·.satisfaction_score), b = (4 : ℚ) := by
    intro b hb
    obtain ⟨f, hf, rfl⟩ := List.mem_map.1 hb
    exact hsat f hf
  have h2 := List.eq_replicate_of_mem h1
  rwa [List.length_map] at h2

/-- Mean satisfaction of a non-empty all-default food list is 4. -/
theorem mean_sat_eq (foods : List FoodItem) (hne : foods ≠ [])
    (hsat : ∀ f ∈ foods, f.satisfaction_score = 4) :
    (foods.map (·.satisfaction_score)).sum / (foods.length : ℚ) = 4 := by
  rw [sat_map_replicate foods hsat, List.sum_replicate, nsmul_eq_mul]
  have hlen : (foods.length : ℚ) ≠ 0 :=
    Nat.cast_ne_zero.mpr (fun h => hne (List.length_eq_zero.1 h))
  rw [mul_comm, mul_div_assoc, div_self hlen, mul_one]

/-- On a non-empty all-default food list, `_calculate_nutrition_score` is 4 plus
the capped diversity bonus. -/
theorem nutrition_score_eq (foods : List FoodItem) (hne : foods ≠ [])
    (hsat : ∀ f ∈ foods, f.satisfaction_score = 4) :
    _calculate_nutrition_score foods =
      4 + min (((foods.map (·.category)).eraseDups.length : ℚ) * 0.1) 0.3 := by
  simp only [_calculate_nutrition_score]
  rw [if_neg (by simpa using hne), mean_sat_eq foods hne hsat]

theorem nutrition_score_bounds (foods : List FoodItem) (hne : foods ≠ [])
    (hsat : ∀ f ∈ foods, f.satisfaction_score = 4) :
    4 ≤ _calculate_nutrition_score foods ∧ _calculate_nutrition_score foods ≤ 43/10 := by
  rw [nutrition_score_eq foods hne hsat]
  constructor
  · have h0 : (0 : ℚ) ≤ min (((foods.map (·.category)).eraseDups.length : ℚ) * 0.1) 0.3 :=
      le_min (by positivity) (by norm_num)
    linarith
  · have h1 := min_le_right (((foods.map (·.category)).eraseDups.length : ℚ) * 0.1) 0.3
    have h2 : (0.3 : ℚ) = 3/10 := by norm_num
    linarith

/-- Every static-fallback combination has the same score, 2.48. -/
theorem score_combination_of_fallback (c : MealCombination) (h : FallbackCombo c) :
    score_combination c = 62/25 := by
  obtain ⟨hlen, _, hsat, hps, hns, _⟩ := h
  have hne : c.foods ≠ [] := by
    intro he
    rw [he] at hlen
    simp at hlen
  unfold score_combination
  rw [hps, hns, mean_sat_eq c.foods hne hsat]
  norm_num

theorem fallback_sorted (meal_type : String) :
    (_generate_fallback_combinations meal_type).Pairwise
      (fun a b => score_combination b ≤ score_combination a) := by
  apply List.pairwise_of_forall_mem_list
  intro a ha b hb
  rw [score_combination_of_fallback a (fallback_sound meal_type a ha),
    score_combination_of_fallback b (fallback_sound meal_type b hb)]

/-- Looking up an id in the worker-result list gives exactly that worker's value. -/
theorem lookup_map_fn {β : Type} (f : String → β) :
    ∀ (ids : List String) (uid : String), uid ∈ ids →
      (ids.map (fun u => (u, f u))).lookup uid = some (f uid) := by
  intro ids
  induction ids with
  | nil => intro uid h; simp at h
  | cons u t ih =>
    intro uid h
    rcases List.mem_cons.1 h with rfl | hmem
    · simp [List.lookup]
    · by_cases hu : uid = u
      · subst hu; simp [List.lookup]
      · have hf : (uid == u) = false := beq_false_of_ne hu
        simp [List.lookup, hf, ih uid hmem]

/-- `_deduplicate_and_rank_combinations` output is sorted by non-increasing
combination score. -/
theorem dedup_rank_sorted (l : List MealCombination) (user_data : UserData) :
    (_deduplicate_and_rank_combinations l user_data).Pairwise
      (fun a b => score_combination b ≤ score_combination a) :=
  pySortDescBy_pairwise _ _

/-- On a non-empty food list the code's `_calculate_nutrition_score` coincides with
the §4.4 formula as worded by the spec. -/
theorem calc_eq_specFormula (foods : List FoodItem) (hne : foods ≠ []) :
    _calculate_nutrition_score foods = specNutritionFormula foods := by
  simp only [_calculate_nutrition_score, specNutritionFormula]
  rw [if_neg (by simpa using hne)]

/-- A combination with ≥ 2 foods has a non-empty food list. -/
theorem foods_ne_nil_of_two_le {c : MealCombination} (h : 2 ≤ c.foods.length) :
    c.foods ≠ [] := by
  intro he
  rw [he] at h
  simp at h

/-! ## Claims -/

/-- C2: Every `MealCombination` in the list returned by
`_generate_meal_combinations` — whatever strategy produced it (historical,
personalized, template, or static fallback) — contains at least 2 food items. -/
theorem claim_combination_min_two_foods (user_data : UserData) (meal_type : String)
    (preferences context : List (String × String)) :
    ∀ c ∈ _generate_meal_combinations user_data meal_type preferences context,
      2 ≤ c.foods.length := by
  intro c hc
  rcases mem_generate_cases user_data meal_type preferences context c hc with h | h | h | h
  · exact (historical_sound user_data meal_type c h).1
  · exact (personalized_sound user_data meal_type preferences c h).1
  · exact (template_sound user_data meal_type c h).1
  · exact (fallback_sound meal_type c h).1

unseal Rat.add Rat.mul Rat.inv Rat.sub Rat.ofScientific in
/-- Witness for C2: the first combination generated for an empty user at lunch has
at least 2 foods. -/
theorem claim_combination_min_two_foods_witness :
    2 ≤ ((_generate_meal_combinations emptyU "lunch" [] []).headI).foods.length :=
  claim_combination_min_two_foods emptyU "lunch" [] [] _ (by decide)

/-- C4: the combination list returned by `_generate_meal_combinations` is sorted in
non-increasing order of score, where the score is
`0.4 * personalizationScore + 0.3 * nutritionScore + 0.3 * meanSatisfaction`
(each food's satisfaction baseline defaulting to 4.0), and the list has length at
most 5. -/
theorem claim_ranked_sorted_top5 (user_data : UserData) (meal_type : String)
    (preferences context : List (String × String)) :
    (_generate_meal_combinations user_data meal_type preferences context).length ≤ 5 ∧
    (_generate_meal_combinations user_data meal_type preferences context).Pairwise
      (fun a b => score_combination b ≤ score_combination a) ∧
    ∀ c : MealCombination, score_combination c =
      0.4 * c.personalization_score + 0.3 * c.nutrition_score +
        0.3 * ((c.foods.map (·.satisfaction_score)).sum / (c.foods.length : ℚ)) := by
  refine ⟨?_, ?_, ?_⟩
  · simp only [_generate_meal_combinations]
    exact List.length_take_le 5 _
  · simp only [_generate_meal_combinations]
    apply List.Pairwise.sublist (List.take_sublist 5 _)
    split_ifs
    all_goals first
      | exact fallback_sorted meal_type
      | exact dedup_rank_sorted _ _
  · intro c
    unfold score_combination
    ring

/-- C3: the dedup step keeps, for each distinct sorted food-name set, exactly the
first combination bearing it (the input is the concatenation of the strategies in
priority order, so the first occurrence is the highest-priority one), and the
ranked list it returns contains each distinct food-name set exactly once. -/
theorem claim_dedup_first_occurrence (combinations : List MealCombination)
    (user_data : UserData) :
    ((_deduplicate_and_rank_combinations combinations user_data).map comboKey).Nodup ∧
    (∀ c ∈ combinations,
      ∃ c' ∈ _deduplicate_and_rank_combinations combinations user_data,
        comboKey c' = comboKey c) ∧
    (∀ c ∈ _deduplicate_and_rank_combinations combinations user_data,
      combinations.find? (fun x => comboKey x == comboKey c) = some c) := by
  refine ⟨?_, ?_, ?_⟩
  · exact ((dedup_rank_perm combinations user_data).map comboKey).nodup_iff.2
      (dedup_keys_nodup combinations []).1
  · intro c hc
    obtain ⟨c', hc', he⟩ := dedup_complete combinations [] c hc (by simp)
    exact ⟨c', (dedup_rank_perm combinations user_data).mem_iff.2 hc', he⟩
  · intro c hc
    exact (dedup_keeps_first combinations [] c
      ((dedup_rank_perm combinations user_data).mem_iff.1 hc)).1

unseal Rat.add Rat.mul Rat.inv Rat.sub Rat.ofScientific in
/-- Witness for C3: of two combinations sharing the food set {苹果, 坚果}, the
ranked output keeps a combination with that key. -/
theorem claim_dedup_first_occurrence_witness :
    ∃ c' ∈ _deduplicate_and_rank_combinations [demoComboA, demoComboB] emptyU,
      comboKey c' = comboKey demoComboB :=
  (claim_dedup_first_occurrence [demoComboA, demoComboB] emptyU).2.1 demoComboB (by decide)

unseal Rat.add Rat.mul Rat.inv Rat.sub Rat.ofScientific in
/-- C9 counterexample: the generator emits a combination (for an empty user at
lunch) whose `nutrition_score` exceeds 1, so nutrition scores do not lie in [0,1]. -/
theorem claim_scores_unit_interval_counterexample :
    ∃ c ∈ _generate_meal_combinations emptyU "lunch" [] [],
      ¬ (c.nutrition_score ≤ 1) := by
  decide

/-- C9 (amended): for every combination produced by the generator and Ranker, the
personalization score lies in [0,1], while the nutrition score lies in
[4, 4.3] (written 43/10), not in [0,1]. -/
theorem claim_scores_ranges (user_data : UserData) (meal_type : String)
    (preferences context : List (String × String)) :
    ∀ c ∈ _generate_meal_combinations user_data meal_type preferences context,
      (0 ≤ c.personalization_score ∧ c.personalization_score ≤ 1) ∧
      (4 ≤ c.nutrition_score ∧ c.nutrition_score ≤ 43/10) := by
  intro c hc
  rcases mem_generate_cases user_data meal_type preferences context c hc with h | h | h | h
  · obtain ⟨hlen, _, hsat, hps, hns, _⟩ := historical_sound user_data meal_type c h
    rw [hps, hns]
    exact ⟨⟨by norm_num, by norm_num⟩,
      nutrition_score_bounds c.foods (foods_ne_nil_of_two_le hlen) hsat⟩
  · obtain ⟨hlen, _, hsat, hps, hns, _⟩ := personalized_sound user_data meal_type preferences c h
    rw [hps, hns]
    exact ⟨⟨by norm_num, by norm_num⟩,
      nutrition_score_bounds c.foods (foods_ne_nil_of_two_le hlen) hsat⟩
  · obtain ⟨hlen, _, hsat, hps, hns, _⟩ := template_sound user_data meal_type c h
    rw [hps, hns]
    exact ⟨⟨by norm_num, by norm_num⟩,
      nutrition_score_bounds c.foods (foods_ne_nil_of_two_le hlen) hsat⟩
  · obtain ⟨hlen, _, hsat, hps, hns, _⟩ := fallback_sound meal_type c h
    rw [hps, hns]
    exact ⟨⟨by norm_num, by norm_num⟩, ⟨le_refl 4, by norm_num⟩⟩

unseal Rat.add Rat.mul Rat.inv Rat.sub Rat.ofScientific in
/-- Witness for C9 (amended) at a concrete input. -/
theorem claim_scores_ranges_witness :
    (0 ≤ ((_generate_meal_combinations emptyU "lunch" [] []).headI).personalization_score ∧
      ((_generate_meal_combinations emptyU "lunch" [] []).headI).personalization_score ≤ 1) ∧
    (4 ≤ ((_generate_meal_combinations emptyU "lunch" [] []).headI).nutrition_score ∧
      ((_generate_meal_combinations emptyU "lunch" [] []).headI).nutrition_score ≤ 43/10) :=
  claim_scores_ranges emptyU "lunch" [] [] _ (by decide)

unseal Rat.add Rat.mul Rat.inv Rat.sub Rat.ofScientific in
/-- C7 counterexample: a static-fallback combination (lunch) whose
`nutrition_score` (the literal 4.0) differs from the §4.4 formula value (4.3). -/
theorem claim_emitted_nutrition_counterexample :
    ∃ c ∈ _generate_fallback_combinations "lunch",
      c.nutrition_score ≠ specNutritionFormula c.foods := by
  decide

/-- C7 (amended): every emitted combination's `totalCalories` is the sum of its
foods' calorie values, the static table lookup defaults to 100 calories for
unknown foods, combinations from the historical/personalized/template strategies
carry the §4.4 nutrition formula, but static-fallback combinations carry the fixed
`nutrition_score` 4.0 instead of the formula. -/
theorem claim_emitted_totals (user_data : UserData) (meal_type : String)
    (preferences context : List (String × String)) :
    (∀ nm : String, food_database.lookup nm = none → (get_food_info nm).calories = 100) ∧
    ∀ c ∈ _generate_meal_combinations user_data meal_type preferences context,
      c.total_calories = (c.foods.map (·.calories)).sum ∧
      (c.source ≠ "fallback" → c.nutrition_score = specNutritionFormula c.foods) ∧
      (c.source = "fallback" → c.nutrition_score = 4) := by
  constructor
  · intro nm h
    unfold get_food_info
    rw [h]
  · intro c hc
    rcases mem_generate_cases user_data meal_type preferences context c hc with h | h | h | h
    · obtain ⟨hlen, htot, _, _, hns, hsrc⟩ := historical_sound user_data meal_type c h
      refine ⟨htot, fun _ => ?_, fun hf => ?_⟩
      · rw [hns]
        exact calc_eq_specFormula c.foods (foods_ne_nil_of_two_le hlen)
      · rw [hsrc] at hf
        exact absurd hf (by decide)
    · obtain ⟨hlen, htot, _, _, hns, hsrc⟩ := personalized_sound user_data meal_type preferences c h
      refine ⟨htot, fun _ => ?_, fun hf => ?_⟩
      · rw [hns]
        exact calc_eq_specFormula c.foods (foods_ne_nil_of_two_le hlen)
      · rw [hsrc] at hf
        exact absurd hf (by decide)
    · obtain ⟨hlen, htot, _, _, hns, hsrc⟩ := template_sound user_data meal_type c h
      refine ⟨htot, fun _ => ?_, fun hf => ?_⟩
      · rw [hns]
        exact calc_eq_specFormula c.foods (foods_ne_nil_of_two_le hlen)
      · rw [hsrc] at hf
        exact absurd hf (by decide)
    · obtain ⟨_, htot, _, _, hns, hsrc⟩ := fallback_sound meal_type c h
      exact ⟨htot, fun hne' => absurd hsrc hne', fun _ => hns⟩

unseal Rat.add Rat.mul Rat.inv Rat.sub Rat.ofScientific in
/-- Witness for C7 (amended): the unknown food 豆浆 defaults to 100 calories, and
the first generated lunch combination's total equals its food-calorie sum. -/
theorem claim_emitted_totals_witness :
    (get_food_info "豆浆").calories = 100 ∧
    ((_generate_meal_combinations emptyU "lunch" [] []).headI).total_calories =
      (((_generate_meal_combinations emptyU "lunch" [] []).headI).foods.map
        (·.calories)).sum :=
  ⟨(claim_emitted_totals emptyU "lunch" [] []).1 "豆浆" (by decide),
    ((claim_emitted_totals emptyU "lunch" [] []).2 _ (by decide)).1⟩

unseal Rat.add Rat.mul Rat.inv Rat.sub Rat.ofScientific in
/-- C6: for any user whose meal log contains exactly two identical lunch records
`{foods: [米饭, 鸡肉], satisfaction: 5}` and no other lunch records, the lunch
generation includes a combination tagged `source = "historical"` whose food set is
exactly {米饭, 鸡肉}. -/
theorem claim_historical_scenario (user_data : UserData)
    (preferences context : List (String × String))
    (h : user_data.meals.filter (isMealType "lunch") = [riceChickenMeal, riceChickenMeal]) :
    ∃ c ∈ _generate_meal_combinations user_data "lunch" preferences context,
      c.source = "historical" ∧ c.foods.map (·.name) = ["米饭", "鸡肉"] := by
  have e1 : _generate_historical_combinations user_data "lunch" =
      historicalFromRecords "lunch" [riceChickenMeal, riceChickenMeal] := by
    unfold _generate_historical_combinations
    rw [h]
  have e2 : _generate_personalized_combinations user_data "lunch" preferences =
      personalizedFromFavorites "lunch"
        (favoriteFromMeals "lunch" [riceChickenMeal, riceChickenMeal]) := by
    unfold _generate_personalized_combinations _get_user_favorite_foods
    rw [favoriteFromMeals_restrict, h]
  have e3 : _generate_template_combinations user_data "lunch" =
      _generate_template_combinations emptyU "lunch" := rfl
  have e4 : ∀ l : List MealCombination,
      _deduplicate_and_rank_combinations l user_data =
        _deduplicate_and_rank_combinations l emptyU := fun _ => rfl
  simp only [_generate_meal_combinations, e1, e2, e3, e4,
    _generate_similar_user_combinations]
  decide

unseal Rat.add Rat.mul Rat.inv Rat.sub Rat.ofScientific in
/-- Witness for C6 at the concrete scenario-A user. -/
theorem claim_historical_scenario_witness :
    ∃ c ∈ _generate_meal_combinations scenarioAUser "lunch" [] [],
      c.source = "historical" ∧ c.foods.map (·.name) = ["米饭", "鸡肉"] :=
  claim_historical_scenario scenarioAUser [] [] (by decide)

/-- C1: for a finite set of user ids (a duplicate-free list), the result of
`batch_process_user_data` has exactly one entry per input id — no duplicates, no
omissions — each entry being that id's own worker value (a populated record or an
error), and the entry of an id is unchanged under any change to the store's
behaviour on the *other* ids (sibling failures cannot abort or alter it). -/
theorem claim_batch_entries (caches : Caches) (fetch : String → Except String UserData)
    (now : String) (user_ids : List String) (h : user_ids.Nodup) :
    ((batch_process_user_data caches fetch now user_ids).1.map Prod.fst = user_ids) ∧
    (∀ uid ∈ user_ids,
      (batch_process_user_data caches fetch now user_ids).1.lookup uid =
        some (_process_single_user fetch now uid)) ∧
    (∀ (fetch' : String → Except String UserData) (uid : String), uid ∈ user_ids →
      fetch' uid = fetch uid →
      (batch_process_user_data caches fetch' now user_ids).1.lookup uid =
        (batch_process_user_data caches fetch now user_ids).1.lookup uid) := by
  refine ⟨?_, ?_, ?_⟩
  · show (user_ids.map (fun u => (u, _process_single_user fetch now u))).map Prod.fst
      = user_ids
    simp [Function.comp_def]
  · intro uid hm
    exact lookup_map_fn _ user_ids uid hm
  · intro fetch' uid hm he
    have h3 : _process_single_user fetch' now uid = _process_single_user fetch now uid := by
      unfold _process_single_user
      rw [he]
    show (user_ids.map (fun u => (u, _process_single_user fetch' now u))).lookup uid =
      (user_ids.map (fun u => (u, _process_single_user fetch now u))).lookup uid
    rw [lookup_map_fn _ user_ids uid hm, lookup_map_fn _ user_ids uid hm, h3]

unseal Rat.add Rat.mul Rat.inv Rat.sub Rat.ofScientific in
/-- Witness for C1: a two-id batch over a one-user store has the entry of `"u1"`
equal to that worker's own value. -/
theorem claim_batch_entries_witness :
    (batch_process_user_data emptyCaches demoFetch "t0" ["u1", "u2"]).1.lookup "u1" =
      some (_process_single_user demoFetch "t0" "u1") :=
  (claim_batch_entries emptyCaches demoFetch "t0" ["u1", "u2"] (by decide)).2.1
    "u1" (by decide)

/-- C5: `start_background_training` is idempotent — after any call the background
loop is live, a second call changes nothing, and when a loop is already live the
call is a no-op on the pipeline state. -/
theorem claim_start_background_idempotent (s : FastTrainingPipelineState) :
    (start_background_training s).backgroundAlive = true ∧
    start_background_training (start_background_training s) = start_background_training s ∧
    (s.backgroundAlive = true → start_background_training s = s) := by
  by_cases hs : s.backgroundAlive = true
  · simp [start_background_training, hs]
  · simp [start_background_training, hs]

/-- Witness for C5: starting on an already-live pipeline changes nothing. -/
theorem claim_start_background_idempotent_witness :
    start_background_training ⟨none, true, false⟩ = ⟨none, true, false⟩ :=
  (claim_start_background_idempotent ⟨none, true, false⟩).2.2 rfl

/-- C8: `predict_recommendations` returns an empty list (not an error) whenever no
model is cached — in particular on the fresh pipeline state, before any training
call — and otherwise maps the matching cached rules (`popular_food` always;
`gender_based` exactly when the profile gender is 女) to `{food, confidence,
reason}` entries capped at the first 5. -/
theorem claim_predict_spec :
    (∀ (fetch : String → Option UserData) (uid mt : String),
      predict_recommendations FastTrainingPipeline.freshState.model fetch uid mt = []) ∧
    (∀ (fetch : String → Option UserData) (uid mt : String),
      predict_recommendations none fetch uid mt = []) ∧
    (∀ (m : TrainedModel) (fetch : String → Option UserData) (uid mt : String)
      (ud : UserData), fetch uid = some ud →
      predict_recommendations (some m) fetch uid mt =
        ((m.recommendation_rules.filter (fun r => _evaluate_rule r ud)).map
          (fun r => { food := r.recommendation, confidence := r.confidence,
                      reason := r.type })).take 5) ∧
    (∀ (r : Rule) (ud : UserData), _evaluate_rule r ud = true ↔
      (r.type = "popular_food" ∨
        (r.type = "gender_based" ∧ ud.profile.gender = some "女"))) := by
  refine ⟨fun _ _ _ => rfl, fun _ _ _ => rfl, ?_, ?_⟩
  · intro m fetch uid mt ud hf
    unfold predict_recommendations
    rw [hf]
  · intro r ud
    unfold _evaluate_rule
    split_ifs with h1 h2
    · have h1' : r.type = "popular_food" := by simpa using h1
      simp [h1']
    · have h1' : r.type ≠ "popular_food" := by simpa using h1
      have h2' : r.type = "gender_based" := by simpa using h2
      simp [h1', h2']
    · have h1' : r.type ≠ "popular_food" := by simpa using h1
      have h2' : r.type ≠ "gender_based" := by simpa using h2
      simp [h1', h2']

unseal Rat.add Rat.mul Rat.inv Rat.sub Rat.ofScientific in
/-- Witness for C8: prediction with a cached one-rule model over a present user
equals the rule-evaluation pipeline. -/
theorem claim_predict_spec_witness :
    predict_recommendations (some demoModel) (fun _ => some emptyU) "u1" "lunch" =
      ((demoModel.recommendation_rules.filter (fun r => _evaluate_rule r emptyU)).map
        (fun r => { food := r.recommendation, confidence := r.confidence,
                    reason := r.type })).take 5 :=
  claim_predict_spec.2.2.1 demoModel (fun _ => some emptyU) "u1" "lunch" emptyU rfl

/-- C10: `get_user_similarity` for a user id with no entry in the cached
preference-profile map returns an empty list — it neither raises an error (the
embedding is a total function) nor scans the other profiles. -/
theorem claim_similarity_unknown_user
    (user_preferences : List (String × PreferenceAnalysis)) (user_id : String)
    (h : user_preferences.lookup user_id = none) :
    get_user_similarity user_preferences user_id = [] := by
  unfold get_user_similarity
  rw [h]

/-- Witness for C10: an empty cache yields the empty similarity list. -/
theorem claim_similarity_unknown_user_witness :
    get_user_similarity [] "ghost" = [] :=
  claim_similarity_unknown_user [] "ghost" rfl

end DietRec
